import Mathlib

/-!
Shallow embedding of the FedorAi idea-router bots.

The definitions below are translated from src/telegram_bot.py and
src/webhook_bot.py: the keyword classifier (determine_category,
determine_priority, get_responsible), the ChatGPT completion wrapper
(process_with_chatgpt, in both variants), the Google sheet dispatcher
(save_to_google_sheet, in both variants) together with the Bitrix task
payload built by create_bitrix_task, and the webhook message router
(handle_message).  External HTTP effects are modelled by injecting each
call outcome as an explicit argument; the observable behaviour of a run
is the list of network calls that reach the wire, whether an error was
logged, and the list of user-visible actions.
-/

/-- Models the Python method str.lower on one character, covering the
ASCII and Cyrillic alphabets used by the keyword lists of the bots. -/
def lowerChar (c : Char) : Char :=
  if 65 ≤ c.toNat ∧ c.toNat ≤ 90 then Char.ofNat (c.toNat + 32)
  else if 0x410 ≤ c.toNat ∧ c.toNat ≤ 0x42F then Char.ofNat (c.toNat + 32)
  else if c.toNat = 0x401 then Char.ofNat 0x451
  else c

/-- Models the Python expression text.lower() used by the classifier. -/
def pyLower (s : String) : String := ⟨s.data.map lowerChar⟩

/-- Models the Python method str.upper on one character, covering the
ASCII and Cyrillic alphabets used by the bots. -/
def upperChar (c : Char) : Char :=
  if 97 ≤ c.toNat ∧ c.toNat ≤ 122 then Char.ofNat (c.toNat - 32)
  else if 0x430 ≤ c.toNat ∧ c.toNat ≤ 0x44F then Char.ofNat (c.toNat - 32)
  else if c.toNat = 0x451 then Char.ofNat 0x401
  else c

/-- Models the Python expression category.upper() used in the Bitrix
task title. -/
def pyUpper (s : String) : String := ⟨s.data.map upperChar⟩

/-- Boolean test that the first character list is an initial segment of
the second. -/
def isPrefixOfL : List Char → List Char → Bool
  | [], _ => true
  | _ :: _, [] => false
  | a :: as, b :: bs => a == b && isPrefixOfL as bs

/-- Models the Python substring operator needle in hay: the needle is a
prefix of some tail of the hay. -/
def containsL (needle : List Char) : List Char → Bool
  | [] => needle.isEmpty
  | b :: bs => isPrefixOfL needle (b :: bs) || containsL needle bs

/-- Models the Python expression needle in hay on strings. -/
def strContains (hay needle : String) : Bool := containsL needle.data hay.data

/-- Outcome of one HTTP request issued through the requests library:
either a completed response carrying a status code, or a raised
exception (network error, timeout, or an invalid URL). -/
inductive HttpOutcome where
  | status (code : Nat)
  | raised
deriving DecidableEq

/-- Models requests.post called with a possibly absent URL: when the
environment variable is unset the URL argument is None and the library
raises before any network traffic happens; otherwise the injected
outcome of the real request is returned. -/
def requestsPost (url : Option String) (outcome : HttpOutcome) : HttpOutcome :=
  match url with
  | none => HttpOutcome.raised
  | some _ => outcome

/-- A JSON scalar as produced by the Python json serialisation of the
payload dictionaries; the source mixes string fields and integer
fields in one dictionary. -/
inductive JVal where
  | str (s : String)
  | num (n : Int)
deriving DecidableEq

/-- The fields dictionary built by create_bitrix_task in
telegram_bot.py. -/
structure BitrixFields where
  TITLE : JVal
  DESCRIPTION : JVal
  RESPONSIBLE_ID : JVal
  PRIORITY : JVal
  TAGS : List JVal
deriving DecidableEq

/-- One outbound network call emitted by the sink dispatcher. -/
inductive NetCall where
  | sheetPost (url : String)
  | bitrixPost (url : String) (fields : BitrixFields)
deriving DecidableEq

/-- Tests whether a network call is the Bitrix task-tracker post. -/
def NetCall.isBitrix : NetCall → Bool
  | NetCall.bitrixPost _ _ => true
  | NetCall.sheetPost _ => false

/-- Sink configuration read from the environment in telegram_bot.py:
the Google Apps Script URL and the Bitrix webhook URL, where none
models an unset (or empty, hence falsy) variable. -/
structure SinkConfig where
  googleUrl : Option String
  bitrixUrl : Option String

/-- Observable result of one dispatcher run: the network calls that
reached the wire, and whether some logger.error line ran. -/
structure SaveOutcome where
  calls : List NetCall
  errorLogged : Bool
deriving DecidableEq

namespace telegram_bot

/-- The ordered category keyword table of determine_category in
telegram_bot.py. -/
def categories : List (String × List String) :=
  [("разработка", ["код", "баг", "фича", "api", "база данных", "разработка", "программирование"]),
   ("маркетинг", ["реклама", "сео", "контент", "соцсети", "продвижение", "маркетинг"]),
   ("продажи", ["клиент", "сделка", "продажи", "менеджер", "crm", "лид"]),
   ("поддержка", ["поддержка", "помощь", "проблема", "вопрос", "техподдержка"])]

/-- Loop body of determine_category: some keyword of the category occurs
in the lowercased text. -/
def categoryMatches (text : String) (c : String × List String) : Bool :=
  c.2.any fun keyword => strContains (pyLower text) keyword

/-- determine_category from telegram_bot.py: the first category of the
table whose keyword set hits the lowercased text, defaulting to общее
when no keyword matches. -/
def determine_category (text : String) : String :=
  match categories.find? (categoryMatches text) with
  | some c => c.1
  | none => "общее"

/-- The high_priority keyword list of determine_priority. -/
def high_priority : List String :=
  ["срочно", "важно", "критично", "горит", "asap", "немедленно"]

/-- The low_priority keyword list of determine_priority. -/
def low_priority : List String :=
  ["идея", "предложение", "когда-нибудь", "не срочно"]

/-- determine_priority from telegram_bot.py: an urgent keyword gives
высокий, otherwise a deferred keyword gives низкий, otherwise
средний. -/
def determine_priority (text : String) : String :=
  if high_priority.any (fun word => strContains (pyLower text) word) then "высокий"
  else if low_priority.any (fun word => strContains (pyLower text) word) then "низкий"
  else "средний"

/-- The responsible_map dictionary of get_responsible. -/
def responsible_map : List (String × String) :=
  [("разработка", "Иван Петров"), ("маркетинг", "Анна Сидорова"),
   ("продажи", "Михаил Козлов"), ("поддержка", "Елена Смирнова"),
   ("общее", "Администратор")]

/-- get_responsible from telegram_bot.py: dictionary lookup with the
default Не назначен. -/
def get_responsible (category : String) : String :=
  (responsible_map.lookup category).getD "Не назначен"

/-- The priority_map dictionary of create_bitrix_task; note that its
values are the digit strings, not integers. -/
def priority_map : List (String × String) :=
  [("низкий", "0"), ("средний", "1"), ("высокий", "2")]

/-- The task_data fields dictionary built by create_bitrix_task in
telegram_bot.py.  The responsible argument is accepted and ignored by
the source, which hard-codes RESPONSIBLE_ID to the integer 1. -/
def create_bitrix_task_fields (description responsible category priority : String) :
    BitrixFields :=
  { TITLE := JVal.str ("[" ++ pyUpper category ++ "] Новая идея из Telegram")
    DESCRIPTION := JVal.str description
    RESPONSIBLE_ID := JVal.num 1
    PRIORITY := JVal.str ((priority_map.lookup priority).getD "1")
    TAGS := [JVal.str category, JVal.str "telegram-bot", JVal.str priority] }

/-- process_with_chatgpt from telegram_bot.py with the outcome of the
remote ChatCompletion call injected: on success the stripped message
content is returned, on any exception a fixed template embedding the
original text. -/
def process_with_chatgpt (remote : Except String String) (text : String) : String :=
  match remote with
  | Except.ok content => content.trim
  | Except.error _ => "Не удалось обработать через ChatGPT. Исходный текст: " ++ text

/-- save_to_google_sheet from telegram_bot.py with the two HTTP call
outcomes injected.  The function posts to the Google URL without any
configuration guard: an unset URL makes requests.post raise before any
network traffic, so no call reaches the wire and the surrounding
exception handler logs an error.  Only a 200 response, with the Bitrix
URL configured, triggers create_bitrix_task; the nested call posts the
task payload and logs an error unless its own response is 200. -/
def save_to_google_sheet (cfg : SinkConfig) (original_text processed_text : String)
    (sheetOut bitrixOut : HttpOutcome) : SaveOutcome :=
  let category := determine_category original_text
  let priority := determine_priority original_text
  let responsible := get_responsible category
  match cfg.googleUrl with
  | none => { calls := [], errorLogged := true }
  | some u =>
    match sheetOut with
    | HttpOutcome.raised => { calls := [NetCall.sheetPost u], errorLogged := true }
    | HttpOutcome.status code =>
      if code = 200 then
        match cfg.bitrixUrl with
        | some b =>
          { calls := [NetCall.sheetPost u,
              NetCall.bitrixPost (b ++ "/tasks.task.add")
                (create_bitrix_task_fields processed_text responsible category priority)]
            errorLogged :=
              match bitrixOut with
              | HttpOutcome.status c => if c = 200 then false else true
              | HttpOutcome.raised => true }
        | none => { calls := [NetCall.sheetPost u], errorLogged := false }
      else { calls := [NetCall.sheetPost u], errorLogged := true }

end telegram_bot

namespace webhook_bot

/-- process_with_chatgpt from webhook_bot.py: the failure template also
embeds the exception text before the original text. -/
def process_with_chatgpt (remote : Except String String) (text : String) : String :=
  match remote with
  | Except.ok content => content.trim
  | Except.error e =>
      "Ошибка обработки через ChatGPT: " ++ e ++ "\n\nИсходный текст: " ++ text

/-- save_to_google_sheet from webhook_bot.py: an unset Google URL is an
explicit guard that logs at info level and returns without any call;
otherwise the record is posted and a non-200 response or a raised
exception is logged as an error. -/
def save_to_google_sheet (googleUrl : Option String) (sheetOut : HttpOutcome) :
    SaveOutcome :=
  match googleUrl with
  | none => { calls := [], errorLogged := false }
  | some u =>
    match sheetOut with
    | HttpOutcome.raised => { calls := [NetCall.sheetPost u], errorLogged := true }
    | HttpOutcome.status code =>
      { calls := [NetCall.sheetPost u], errorLogged := if code = 200 then false else true }

/-- One user-visible or outbound action of the webhook router. -/
inductive Act where
  | reply (text : String)
  | edit (text : String)
  | completionCall
  | sheetCall
deriving DecidableEq

/-- The /start reply text of handle_message. -/
def start_text : String :=
  "🤖 *Федя, привет!*\n\nЯ могу:\n• 💬 Принимать текстовые сообщения  \n• 🧠 Обрабатывать их через ChatGPT\n• 📊 Сохранять результаты\n\nПросто отправьте мне текстовое сообщение!"

/-- The /help reply text of handle_message. -/
def help_text : String :=
  "📋 *Как использовать бота:*\n\n1. Отправьте любую идею или задачу\n2. Бот обработает её через ChatGPT  \n3. Получите структурированный ответ\n\n*Команды:*\n• /start - начать работу\n• /help - эта справка"

/-- The processing acknowledgment sent before calling ChatGPT. -/
def processing_text : String := "💭 Обрабатываю через ChatGPT..."

/-- The final result text edited into the acknowledgment message. -/
def result_text (processed : String) : String :=
  "✅ *Сообщение обработано!*\n\n💭 *Обработанная мысль:*\n" ++ processed

/-- handle_message from webhook_bot.py, for a delivered update carrying
a message, as the ordered list of actions it performs.  The sendOk flag
is the outcome of sending the processing acknowledgment: the router
stops when it gets no message id back.  The remote argument is the
injected ChatGPT call outcome.  The commands /start and /help receive
fixed replies; any other text that is empty or starts with a slash
falls through the final guard and is ignored without any action. -/
def handle_message (sheetConfigured : Bool) (sendOk : Bool)
    (remote : Except String String) (text : String) : List Act :=
  if text = "/start" then [Act.reply start_text]
  else if text = "/help" then [Act.reply help_text]
  else if text = "" then []
  else if isPrefixOfL "/".data text.data then []
  else
    Act.reply processing_text ::
      (if sendOk then
        Act.completionCall ::
          ((if sheetConfigured then [Act.sheetCall] else []) ++
            [Act.edit (result_text (process_with_chatgpt remote text))])
      else [])

end webhook_bot

/-- Modelled on the wording of the spec for comparison with the source:
the numeric priority mapping announced for the task-tracker payload,
низкий to 0, средний to 1, высокий to 2. -/
def spec_priority_num (p : String) : Nat :=
  if p = "низкий" then 0
  else if p = "средний" then 1
  else 2

theorem isPrefixOfL_self (l : List Char) : isPrefixOfL l l = true := by
  induction l with
  | nil => rfl
  | cons a as ih => simp [isPrefixOfL, ih]

theorem containsL_append_self (pre l : List Char) : containsL l (pre ++ l) = true := by
  induction pre with
  | nil =>
    cases l with
    | nil => rfl
    | cons a as => simp [containsL, isPrefixOfL_self]
  | cons c cs ih => simp [containsL, ih]

theorem data_append (s t : String) : (s ++ t).data = s.data ++ t.data := rfl

theorem strContains_append_self (pre t : String) : strContains (pre ++ t) t = true := by
  simp [strContains, data_append, containsL_append_self]

theorem find?_eq_filter_head? {α : Type} (p : α → Bool) (l : List α) :
    l.find? p = (l.filter p).head? := by
  induction l with
  | nil => rfl
  | cons a as ih =>
    cases h : p a with
    | true => simp [List.find?_cons_of_pos _ h, List.filter_cons_of_pos h]
    | false =>
      have h' : ¬ p a := by simp [h]
      rw [List.find?_cons_of_neg _ h', List.filter_cons_of_neg h', ih]

/-- C1: for every record dispatch of telegram_bot save_to_google_sheet,
the Bitrix task-tracker call is emitted if and only if the spreadsheet
submission reported HTTP 200 and the Bitrix webhook URL is configured;
in particular any failure of the spreadsheet call (non-200 status,
raised exception, or unset URL making the post raise) suppresses the
task-tracker call. -/
theorem bitrix_iff_sheet_success (cfg : SinkConfig) (ot pt : String)
    (sheetOut bitrixOut : HttpOutcome) :
    ((telegram_bot.save_to_google_sheet cfg ot pt sheetOut bitrixOut).calls.any
        NetCall.isBitrix) = true ↔
      (requestsPost cfg.googleUrl sheetOut = HttpOutcome.status 200 ∧
        cfg.bitrixUrl.isSome = true) := by
  obtain ⟨g, b⟩ := cfg
  cases g with
  | none => simp [telegram_bot.save_to_google_sheet, requestsPost]
  | some u =>
    cases sheetOut with
    | raised =>
      cases b <;>
        simp [telegram_bot.save_to_google_sheet, requestsPost, NetCall.isBitrix]
    | status n =>
      by_cases hn : n = 200
      · subst hn
        cases b <;>
          simp [telegram_bot.save_to_google_sheet, requestsPost, NetCall.isBitrix]
      · cases b <;>
          simp [telegram_bot.save_to_google_sheet, requestsPost, NetCall.isBitrix, hn]

/-- C2: both process_with_chatgpt variants absorb any failure of the
remote completion call (the embedding makes them total functions of the
injected outcome) and on failure return a template string containing
the original input text, so the caller always receives a usable
string. -/
theorem process_with_chatgpt_fail_open (text err : String) :
    strContains (telegram_bot.process_with_chatgpt (Except.error err) text) text = true ∧
    strContains (webhook_bot.process_with_chatgpt (Except.error err) text) text = true := by
  constructor
  · show strContains ("Не удалось обработать через ChatGPT. Исходный текст: " ++ text) text = true
    exact strContains_append_self _ text
  · show strContains
      ("Ошибка обработки через ChatGPT: " ++ err ++ "\n\nИсходный текст: " ++ text) text = true
    exact strContains_append_self _ text

/-- C3: when the lowercased text hits the keywords of two or more
categories, determine_category returns the matching category declared
earliest in the ordered table (разработка before маркетинг before
продажи before поддержка); determinism holds because the classifier is
a pure function of the text. -/
theorem category_earliest_match_wins (text : String)
    (h2 : 2 ≤ (telegram_bot.categories.filter (telegram_bot.categoryMatches text)).length) :
    ∃ c, (telegram_bot.categories.filter (telegram_bot.categoryMatches text)).head? = some c ∧
      telegram_bot.determine_category text = c.1 := by
  cases hfl : telegram_bot.categories.filter (telegram_bot.categoryMatches text) with
  | nil => rw [hfl] at h2; simp at h2
  | cons c cs =>
    refine ⟨c, rfl, ?_⟩
    unfold telegram_bot.determine_category
    rw [find?_eq_filter_head?, hfl]
    rfl

/-- C3 witness: the text код реклама hits both разработка (keyword код)
and маркетинг (keyword реклама); the earlier declared разработка
wins. -/
theorem category_earliest_match_wins_at :
    2 ≤ (telegram_bot.categories.filter (telegram_bot.categoryMatches "код реклама")).length ∧
    ∃ c, (telegram_bot.categories.filter (telegram_bot.categoryMatches "код реклама")).head? = some c ∧
      telegram_bot.determine_category "код реклама" = c.1 :=
  ⟨by decide, category_earliest_match_wins "код реклама" (by decide)⟩

/-- C4: any text whose lowercased form contains a word of the fixed
urgent list is classified with priority высокий, whatever else the
text contains, including words of the deferred list. -/
theorem urgent_word_gives_high (text w : String)
    (hw : w ∈ telegram_bot.high_priority)
    (h : strContains (pyLower text) w = true) :
    telegram_bot.determine_priority text = "высокий" := by
  have hany : telegram_bot.high_priority.any (fun word => strContains (pyLower text) word) = true :=
    List.any_eq_true.mpr ⟨w, hw, h⟩
  simp [telegram_bot.determine_priority, hany]

/-- C4 witness: срочно идея contains the urgent word срочно together
with the deferred word идея, and is still classified высокий. -/
theorem urgent_word_gives_high_at :
    ("срочно" ∈ telegram_bot.high_priority ∧
      strContains (pyLower "срочно идея") "срочно" = true) ∧
    telegram_bot.determine_priority "срочно идея" = "высокий" :=
  ⟨⟨by decide, by decide⟩, urgent_word_gives_high "срочно идея" "срочно" (by decide) (by decide)⟩

/-- C5: a text whose lowercased form hits no category keyword and no
urgent or deferred keyword is classified as category общее with
priority средний. -/
theorem no_keyword_gives_default (text : String)
    (hcat : ∀ c ∈ telegram_bot.categories, ∀ kw ∈ c.2, strContains (pyLower text) kw = false)
    (hhi : ∀ w ∈ telegram_bot.high_priority, strContains (pyLower text) w = false)
    (hlo : ∀ w ∈ telegram_bot.low_priority, strContains (pyLower text) w = false) :
    telegram_bot.determine_category text = "общее" ∧
    telegram_bot.determine_priority text = "средний" := by
  constructor
  · have hfind : telegram_bot.categories.find? (telegram_bot.categoryMatches text) = none := by
      rw [List.find?_eq_none]
      intro c hc hmatch
      obtain ⟨kw, hkw, htrue⟩ := List.any_eq_true.mp hmatch
      rw [hcat c hc kw hkw] at htrue
      cases htrue
    simp [telegram_bot.determine_category, hfind]
  · have h1 : telegram_bot.high_priority.any (fun w => strContains (pyLower text) w) = false :=
      List.any_eq_false.mpr (fun w hw => by simp [hhi w hw])
    have h2 : telegram_bot.low_priority.any (fun w => strContains (pyLower text) w) = false :=
      List.any_eq_false.mpr (fun w hw => by simp [hlo w hw])
    simp [telegram_bot.determine_priority, h1, h2]

/-- C5 witness: the text привет hits no keyword of any list and gets
the defaults общее and средний. -/
theorem no_keyword_gives_default_at :
    ((∀ c ∈ telegram_bot.categories, ∀ kw ∈ c.2, strContains (pyLower "привет") kw = false) ∧
     (∀ w ∈ telegram_bot.high_priority, strContains (pyLower "привет") w = false) ∧
     (∀ w ∈ telegram_bot.low_priority, strContains (pyLower "привет") w = false)) ∧
    (telegram_bot.determine_category "привет" = "общее" ∧
     telegram_bot.determine_priority "привет" = "средний") :=
  ⟨⟨by decide, by decide, by decide⟩,
    no_keyword_gives_default "привет" (by decide) (by decide) (by decide)⟩

/-- C6 counterexample: on the empty input text the webhook router
performs no action at all, in particular it sends no apology reply,
refuting the claim that exactly one fixed apology reply is sent. -/
theorem empty_text_no_actions_at :
    webhook_bot.handle_message true true (Except.ok "s") "" = [] := rfl

/-- C6 amended: on the empty input text the webhook router stops before
any external call (no completion, spreadsheet or task-tracker call) and
sends no reply at all: the message is silently ignored rather than
answered with an apology. -/
theorem empty_text_aborts (sheetConfigured sendOk : Bool) (remote : Except String String) :
    webhook_bot.handle_message sheetConfigured sendOk remote "" = [] := rfl

/-- C7 counterexample: with the spreadsheet URL unconfigured, the
telegram_bot dispatcher still runs its exception path: requests.post
raises on the absent URL and the handler logs an error, so the missing
configuration is not treated as a silent skip there, even though no
call reaches the wire. -/
theorem sheet_unconfigured_logs_error_at :
    (telegram_bot.save_to_google_sheet ⟨none, some "b"⟩ "идея" "p"
        (HttpOutcome.status 200) (HttpOutcome.status 200)).errorLogged = true ∧
    (telegram_bot.save_to_google_sheet ⟨none, some "b"⟩ "идея" "p"
        (HttpOutcome.status 200) (HttpOutcome.status 200)).calls = [] :=
  ⟨rfl, rfl⟩

/-- C7 amended: with the spreadsheet URL unconfigured no network HTTP
call is made for either sink in either variant; the webhook variant
skips silently, while the telegram variant invokes the HTTP client on
the absent URL, which raises, and the exception is caught and logged as
an error; in neither variant does anything propagate to the caller. -/
theorem sheet_unconfigured_no_calls (ot pt : String) (o1 o2 o3 : HttpOutcome)
    (cfg : SinkConfig) (hg : cfg.googleUrl = none) :
    (telegram_bot.save_to_google_sheet cfg ot pt o1 o2).calls = [] ∧
    (webhook_bot.save_to_google_sheet none o3).calls = [] ∧
    (webhook_bot.save_to_google_sheet none o3).errorLogged = false := by
  obtain ⟨g, b⟩ := cfg
  cases hg
  exact ⟨rfl, rfl, rfl⟩

/-- C7 witness: the amended statement applied to a concrete
configuration with only the Bitrix URL set and raised outcomes. -/
theorem sheet_unconfigured_no_calls_at :
    (SinkConfig.mk none (some "b")).googleUrl = none ∧
    ((telegram_bot.save_to_google_sheet ⟨none, some "b"⟩ "t" "p"
        HttpOutcome.raised HttpOutcome.raised).calls = [] ∧
     (webhook_bot.save_to_google_sheet none HttpOutcome.raised).calls = [] ∧
     (webhook_bot.save_to_google_sheet none HttpOutcome.raised).errorLogged = false) :=
  ⟨rfl, sheet_unconfigured_no_calls "t" "p" HttpOutcome.raised HttpOutcome.raised
    HttpOutcome.raised ⟨none, some "b"⟩ rfl⟩

/-- C8 counterexample: the PRIORITY field of the Bitrix task payload is
the digit string, not a JSON number: for the high priority the code
puts the string 2 into the field, so the field is not the numeric value
2. -/
theorem bitrix_priority_is_string_at :
    (telegram_bot.create_bitrix_task_fields "d" "Иван Петров" "разработка" "высокий").PRIORITY
        = JVal.str "2" ∧
    (telegram_bot.create_bitrix_task_fields "d" "Иван Петров" "разработка" "высокий").PRIORITY
        ≠ JVal.num 2 := by
  exact ⟨rfl, by decide⟩

/-- C8 amended: for each of the three classifier priority values, the
PRIORITY field of the Bitrix task payload is the decimal string form of
the numeric mapping низкий to 0, средний to 1, высокий to 2 announced
by the spec. -/
theorem bitrix_priority_string_of_num (d r c p : String)
    (hp : p ∈ ["низкий", "средний", "высокий"]) :
    (telegram_bot.create_bitrix_task_fields d r c p).PRIORITY =
      JVal.str (toString (spec_priority_num p)) := by
  simp only [List.mem_cons, List.not_mem_nil, or_false] at hp
  rcases hp with rfl | rfl | rfl <;> rfl

/-- C8 witness: the amended statement applied to the high priority. -/
theorem bitrix_priority_string_of_num_at :
    ("высокий" ∈ ["низкий", "средний", "высокий"]) ∧
    (telegram_bot.create_bitrix_task_fields "d" "r" "c" "высокий").PRIORITY =
      JVal.str (toString (spec_priority_num "высокий")) :=
  ⟨by decide, bitrix_priority_string_of_num "d" "r" "c" "высокий" (by decide)⟩

/-- C9: the text срочно нужно обновить API is classified as category
разработка (keyword api after lowercasing) with priority высокий
(keyword срочно). -/
theorem classify_srochno_api :
    telegram_bot.determine_category "срочно нужно обновить API" = "разработка" ∧
    telegram_bot.determine_priority "срочно нужно обновить API" = "высокий" := by
  constructor <;> decide

/-- C10: for every input text the responsible resolved for the
classified category is one of the five named assignees of the static
table, so the Не назначен fallback of the lookup is unreachable from
the classifier. -/
theorem responsible_always_named (text : String) :
    telegram_bot.get_responsible (telegram_bot.determine_category text) ∈
      ["Иван Петров", "Анна Сидорова", "Михаил Козлов", "Елена Смирнова", "Администратор"] ∧
    telegram_bot.get_responsible (telegram_bot.determine_category text) ≠ "Не назначен" := by
  have hcat : telegram_bot.determine_category text ∈
      ["разработка", "маркетинг", "продажи", "поддержка", "общее"] := by
    unfold telegram_bot.determine_category
    split
    · next c hf =>
      have hc : c ∈ telegram_bot.categories := List.mem_of_find?_eq_some hf
      simp only [telegram_bot.categories, List.mem_cons, List.not_mem_nil, or_false] at hc
      rcases hc with rfl | rfl | rfl | rfl <;> decide
    · decide
  simp only [List.mem_cons, List.not_mem_nil, or_false] at hcat
  rcases hcat with h | h | h | h | h <;> rw [h] <;> decide
